import Mathlib

/- Shallow embedding of the Kampai backend's account, usage, subscription
and payment logic, translated from src/backend/auth.py and
src/backend/payment.py.  The relational store is modelled as lists of
rows; calendar days and timestamps are modelled as natural numbers
(day index, seconds).  Columns that no claim reads (created_at,
last_login, plan_expires, admin log rows, announcement rows) are
omitted from the row structures. -/

namespace Kampai

/-- Plan catalog entry (auth.py PLANS).  Presentation-only fields of the
dictionary (model names, resolution, watermark, speed, cost) are omitted;
`price` and `daily_limit` are the fields the entitlement and payment
logic read. -/
structure PlanInfo where
  name : String
  price : Int
  daily_limit : Int
  deriving Repr, DecidableEq

def freePlan : PlanInfo := { name := "Free", price := 0, daily_limit := 3 }

def basicPlan : PlanInfo := { name := "Basic", price := 4900, daily_limit := 30 }

def proPlan : PlanInfo := { name := "Pro", price := 19900, daily_limit := 100 }

def businessPlan : PlanInfo := { name := "Business", price := 99000, daily_limit := 500 }

/-- Lookup in the PLANS dictionary (auth.py lines 60-114). -/
def PLANS (tag : String) : Option PlanInfo :=
  if tag == "free" then some freePlan
  else if tag == "basic" then some basicPlan
  else if tag == "pro" then some proPlan
  else if tag == "business" then some businessPlan
  else none

/-- Python `PLANS.get(plan, PLANS['free'])` (auth.py line 582). -/
def plans_get (tag : String) : PlanInfo := (PLANS tag).getD freePlan

/-- Row of the `users` table. -/
structure UserRow where
  id : Nat
  email : String
  password_hash : String
  name : Option String
  plan : String
  is_active : Bool
  is_admin : Bool
  deriving Repr, DecidableEq

/-- Row of the `usage` table, keyed (user_id, date) with UNIQUE(user_id, date). -/
structure UsageRow where
  user_id : Nat
  date : Nat
  generation_count : Int
  deriving Repr, DecidableEq

/-- Row of the `generations` table (append-only telemetry). -/
structure GenRow where
  user_id : Nat
  prompt : Option String
  style : Option String
  image_path : Option String
  deriving Repr, DecidableEq

/-- Row of the `subscriptions` table. -/
structure SubRow where
  user_id : Nat
  plan : String
  status : String
  started_at : Nat
  expires_at : Option Nat
  payment_key : Option String
  order_id : Option String
  deriving Repr, DecidableEq

/-- Row of the `payments` table; `order_id` is UNIQUE. -/
structure PaymentRow where
  user_id : Nat
  order_id : String
  payment_key : Option String
  amount : Int
  plan : String
  status : String
  approved_at : Option Nat
  deriving Repr, DecidableEq

/-- The relational store. -/
structure DB where
  users : List UserRow
  subscriptions : List SubRow
  usage : List UsageRow
  generations : List GenRow
  payments : List PaymentRow
  deriving Repr, DecidableEq

/-- hash_password (auth.py lines 324-327): SHA-256 over password plus the
fixed salt "kampai_salt_2025".  The SHA-256 digest is modelled as an
injective deterministic encoding of its input; the claims below depend
only on the digest being a deterministic function of the input. -/
def hash_password (password : String) : String :=
  "sha256:" ++ password ++ "kampai_salt_2025"

/-- verify_password (auth.py lines 330-332). -/
def verify_password (password password_hash : String) : Bool :=
  hash_password password == password_hash

/-- Payload of the self-contained signed JWT issued by create_token
(auth.py lines 335-342); signature validity is modelled by the value
itself, so a Token value stands for a well-signed token. -/
structure Token where
  user_id : Nat
  email : String
  exp : Nat
  deriving Repr, DecidableEq

def JWT_EXPIRY_HOURS : Nat := 24 * 7

/-- create_token: payload carries user_id, email and exp = now + 7 days. -/
def create_token (user_id : Nat) (email : String) (now : Nat) : Token :=
  { user_id := user_id, email := email, exp := now + JWT_EXPIRY_HOURS * 3600 }

/-- verify_token (auth.py lines 345-353): returns the payload unless the
exp claim has passed. -/
def verify_token (t : Token) (now : Nat) : Option Token :=
  if now < t.exp then some t else none

def find_user_by_id (db : DB) (uid : Nat) : Option UserRow :=
  db.users.find? (fun u => u.id == uid)

def find_user_by_email (db : DB) (email : String) : Option UserRow :=
  db.users.find? (fun u => u.email == email)

/-- Identity attached to request.user by the auth decorators. -/
structure Identity where
  id : Nat
  email : String
  plan : String
  deriving Repr, DecidableEq

/-- token_required decorator (auth.py lines 356-401): returns the identity
attached to request.user, or the 401 error string; the authenticated
request is modelled by an optional bearer token. -/
def token_required (db : DB) (now : Nat) (auth : Option Token) :
    Except String Identity :=
  match auth with
  | none => .error "토큰이 필요합니다"
  | some t =>
    match verify_token t now with
    | none => .error "유효하지 않은 토큰입니다"
    | some payload =>
      match find_user_by_id db payload.user_id with
      | none => .error "사용자를 찾을 수 없습니다"
      | some user =>
        if !user.is_active then .error "비활성화된 계정입니다"
        else .ok { id := user.id, email := user.email, plan := user.plan }

/-- optional_token decorator (auth.py lines 404-441): attaches the identity
when a valid token names an existing user; note it reads only id, email
and plan, never is_active. -/
def optional_token (db : DB) (now : Nat) (auth : Option Token) :
    Option Identity :=
  match auth with
  | none => none
  | some t =>
    match verify_token t now with
    | none => none
    | some payload =>
      match find_user_by_id db payload.user_id with
      | none => none
      | some user => some { id := user.id, email := user.email, plan := user.plan }

/-- User object included in register/login responses. -/
structure UserOut where
  id : Nat
  email : String
  name : Option String
  plan : String
  deriving Repr, DecidableEq

/-- Result dict of register_user / login_user. -/
inductive AuthResult where
  | failure (error : String)
  | success (message : String) (user : UserOut) (token : Token)
  deriving Repr, DecidableEq

def AuthResult.is_success : AuthResult → Bool
  | .success _ _ _ => true
  | .failure _ => false

def AuthResult.email_of : AuthResult → Option String
  | .success _ u _ => some u.email
  | .failure _ => none

/-- Autoincrement primary key for users. -/
def next_user_id (db : DB) : Nat :=
  db.users.foldr (fun u m => max u.id m) 0 + 1

/-- register_user (auth.py lines 448-508).  Rejects passwords shorter
than 8 characters, then duplicate emails; otherwise inserts the user row
with plan 'free', inserts (OR IGNORE) a zeroed usage row for today, and
returns the user object and a fresh token. -/
def register_user (db : DB) (now today : Nat) (email password : String)
    (name : Option String) : AuthResult × DB :=
  if password.length < 8 then
    (.failure "비밀번호는 8자 이상이어야 합니다", db)
  else
    match find_user_by_email db email with
    | some _ => (.failure "이미 가입된 이메일입니다", db)
    | none =>
      let password_hash := hash_password password
      let uid := next_user_id db
      let newUser : UserRow :=
        { id := uid, email := email, password_hash := password_hash,
          name := name, plan := "free", is_active := true, is_admin := false }
      let usage1 :=
        if (db.usage.find? (fun r => r.user_id == uid && r.date == today)).isSome
        then db.usage
        else db.usage ++ [{ user_id := uid, date := today, generation_count := 0 }]
      let db2 := { db with users := db.users ++ [newUser], usage := usage1 }
      (.success "회원가입이 완료되었습니다"
        { id := uid, email := email, name := name, plan := "free" }
        (create_token uid email now), db2)

/-- login_user (auth.py lines 511-561).  A missing email and a wrong
password produce the same failure dict; a disabled account produces its
own message.  The last_login touch is not modelled (no claim reads it). -/
def login_user (db : DB) (now : Nat) (email password : String) :
    AuthResult × DB :=
  match find_user_by_email db email with
  | none => (.failure "이메일 또는 비밀번호가 올바르지 않습니다", db)
  | some user =>
    if !user.is_active then (.failure "비활성화된 계정입니다", db)
    else if !(verify_password password user.password_hash) then
      (.failure "이메일 또는 비밀번호가 올바르지 않습니다", db)
    else
      (.success "로그인 성공"
        { id := user.id, email := user.email, name := user.name, plan := user.plan }
        (create_token user.id user.email now), db)

/-- Usage snapshot dict returned by get_user_usage; the code's duplicate
keys "today" and "today_count" carry the same value and are folded into
`today_count`. -/
structure Usage where
  plan : String
  plan_info : PlanInfo
  today_count : Int
  daily_limit : Int
  remaining : Int
  total_generated : Nat
  can_generate : Bool
  deriving Repr, DecidableEq

/-- Today's generation_count for a user, 0 when no row exists
(auth.py lines 584-596). -/
def today_count_of (db : DB) (today uid : Nat) : Int :=
  match db.usage.find? (fun r => r.user_id == uid && r.date == today) with
  | some r => r.generation_count
  | none => 0

/-- The remaining computation of get_user_usage, auth.py line 606:
`remaining = daily_limit - today_count if daily_limit > 0 else -1`. -/
def remaining_of (daily_limit today_count : Int) : Int :=
  if daily_limit > 0 then daily_limit - today_count else -1

/-- The gate expression of get_user_usage, auth.py line 616:
`daily_limit < 0 or today_count < daily_limit`. -/
def can_generate_of (daily_limit today_count : Int) : Bool :=
  decide (daily_limit < 0) || decide (today_count < daily_limit)

/-- get_user_usage (auth.py lines 568-617): returns none when the user
row is missing, mirroring the Python `return None`. -/
def get_user_usage (db : DB) (today uid : Nat) : Option Usage :=
  match find_user_by_id db uid with
  | none => none
  | some user =>
    let plan_info := plans_get user.plan
    let today_count := today_count_of db today uid
    let total_count := (db.generations.filter (fun g => g.user_id == uid)).length
    let daily_limit := plan_info.daily_limit
    some { plan := user.plan, plan_info := plan_info,
           today_count := today_count, daily_limit := daily_limit,
           remaining := remaining_of daily_limit today_count,
           total_generated := total_count,
           can_generate := can_generate_of daily_limit today_count }

/-- Result dict of check_can_generate. -/
structure CheckResult where
  can_generate : Bool
  error : Option String
  usage : Option Usage
  deriving Repr, DecidableEq

/-- check_can_generate (auth.py lines 620-633). -/
def check_can_generate (db : DB) (today uid : Nat) : CheckResult :=
  match get_user_usage db today uid with
  | none =>
    { can_generate := false, error := some "사용자를 찾을 수 없습니다", usage := none }
  | some u =>
    if !u.can_generate then
      { can_generate := false,
        error := some ("오늘의 무료 생성 횟수(" ++ toString u.daily_limit
          ++ "회)를 모두 사용했습니다. Pro로 업그레이드하세요!"),
        usage := some u }
    else { can_generate := true, error := none, usage := some u }

/-- increment_usage (auth.py lines 636-667): upserts today's counter
(insert-with-count-1 or increment-existing) and appends a generation
record when prompt or action is truthy (an absent/empty prompt is
modelled as none). -/
def increment_usage (db : DB) (today uid : Nat) (action : String)
    (prompt style image_path : Option String) : DB :=
  let usage1 :=
    if (db.usage.find? (fun r => r.user_id == uid && r.date == today)).isSome then
      db.usage.map (fun r =>
        if r.user_id == uid && r.date == today then
          { r with generation_count := r.generation_count + 1 }
        else r)
    else
      db.usage ++ [{ user_id := uid, date := today, generation_count := 1 }]
  let genRow : GenRow :=
    { user_id := uid, prompt := some (prompt.getD ("[" ++ action ++ "]")),
      style := style, image_path := image_path }
  let gens :=
    if prompt.isSome || action != "" then db.generations ++ [genRow]
    else db.generations
  { db with usage := usage1, generations := gens }

/-- Iterated increment_usage with the defaults of the generate path
(action 'generate'). -/
def iterate_inc (db : DB) (today uid : Nat) : Nat → DB
  | 0 => db
  | n + 1 => increment_usage (iterate_inc db today uid n) today uid "generate" none none none

/-- Subscription status dict of get_subscription_status; keys absent in
the no-row branch of the Python dict are modelled as none. -/
structure SubStatus where
  active : Bool
  plan : String
  status : Option String
  started_at : Option Nat
  expires_at : Option Nat
  is_expired : Option Bool
  deriving Repr, DecidableEq

/-- The row selected by `WHERE user_id = ? AND status = 'active' ORDER BY
started_at DESC LIMIT 1` (auth.py lines 705-710): a row of maximal
started_at among the user's active rows. -/
def latest_active_sub (db : DB) (uid : Nat) : Option SubRow :=
  (db.subscriptions.filter (fun s => s.user_id == uid && s.status == "active")).foldl
    (fun acc s =>
      match acc with
      | none => some s
      | some b => if b.started_at < s.started_at then some s else some b)
    none

/-- get_subscription_status (auth.py lines 699-743). -/
def get_subscription_status (db : DB) (now : Nat) (uid : Nat) : SubStatus :=
  match latest_active_sub db uid with
  | none =>
    { active := false, plan := "free", status := none, started_at := none,
      expires_at := none, is_expired := none }
  | some sub =>
    let is_expired : Bool :=
      match sub.expires_at with
      | none => false
      | some e => decide (e < now)
    { active := !is_expired, plan := sub.plan, status := some sub.status,
      started_at := some sub.started_at, expires_at := sub.expires_at,
      is_expired := some is_expired }

/-- Plan price table of payment.py (PLAN_PRICES, lines 28-32). -/
def PLAN_PRICES (plan : String) : Option Int :=
  if plan == "basic" then some 4900
  else if plan == "pro" then some 19900
  else if plan == "business" then some 99000
  else none

/-- `datetime.now().strftime('%Y%m%d%H%M%S')`: an injective function of
the wall-clock time truncated to whole seconds, modelled by the second
index itself. -/
def timestamp_str (now_seconds : Nat) : String := toString now_seconds

/-- The order identifier of create_payment_order (payment.py line 48):
derived only from user id, plan tag and the current second. -/
def order_id_of (uid : Nat) (plan : String) (now_seconds : Nat) : String :=
  "KAMPAI_" ++ toString uid ++ "_" ++ plan ++ "_" ++ timestamp_str now_seconds

/-- Order dict returned by create_payment_order (client_key omitted). -/
structure OrderOut where
  order_id : String
  amount : Int
  plan : String
  order_name : String
  deriving Repr, DecidableEq

inductive CreateOrderResult where
  | failure (error : String)
  | success (order : OrderOut)
  deriving Repr, DecidableEq

/-- create_payment_order (payment.py lines 42-71).  The INSERT into
payments is subject to UNIQUE(order_id); a colliding insert raises the
database integrity error, modelled as Except.error, instead of
returning a result dict. -/
def create_payment_order (db : DB) (now_seconds uid : Nat) (plan : String) :
    Except String (CreateOrderResult × DB) :=
  match PLAN_PRICES plan with
  | none => .ok (.failure "유효하지 않은 플랜입니다", db)
  | some amount =>
    let oid := order_id_of uid plan now_seconds
    let row : PaymentRow :=
      { user_id := uid, order_id := oid, payment_key := none,
        amount := amount, plan := plan, status := "pending", approved_at := none }
    let out : OrderOut :=
      { order_id := oid, amount := amount, plan := plan,
        order_name := "Kampai " ++ plan.capitalize ++ " 플랜 (1개월)" }
    if (db.payments.find? (fun p => p.order_id == oid)).isSome then
      .error "UNIQUE constraint failed: payments.order_id"
    else
      .ok (.success out, { db with payments := db.payments ++ [row] })

/-- Outcome of an outbound call to the payment gateway, supplied as an
input to the operations that call it. -/
inductive GatewayResp where
  | ok
  | httpError (message : String) (code : Option String)
  | timeout
  deriving Repr, DecidableEq

/-- Result dict of confirm_payment. -/
inductive ConfirmResult where
  | orderNotFound
  | alreadyProcessed
  | amountMismatch (expected received : Int)
  | gatewayFailed (message : String) (code : Option String)
  | gatewayTimeout
  | confirmed (plan : String) (expires_at : Nat) (testMode : Bool)
  deriving Repr, DecidableEq

def ConfirmResult.is_success : ConfirmResult → Bool
  | .confirmed _ _ _ => true
  | _ => false

/-- Python `int(base_amount * 0.1)` (payment.py line 103) computed with
binary floating point; for every amount the system stores (the
PLAN_PRICES values 4900, 19900, 99000) this equals exact floor division
by ten, which is how it is modelled. -/
def vat_of (base_amount : Int) : Int := base_amount / 10

/-- confirm_payment (payment.py lines 74-211).  The order row is looked
up by order_id; a non-pending order is rejected; the amount must equal
the stored price or the price plus VAT; then the test-mode marker on the
payment key short-circuits the gateway.  On approval the payment row is
updated, the user's plan is set, and a subscription row is inserted
(SQLite INSERT OR REPLACE on a table with no unique constraint appends,
so both the test and the live path append a row). -/
def confirm_payment (db : DB) (now : Nat) (gateway : GatewayResp)
    (payment_key order_id : String) (amount : Int) : ConfirmResult × DB :=
  match db.payments.find? (fun p => p.order_id == order_id) with
  | none => (.orderNotFound, db)
  | some payment =>
    if payment.status != "pending" then (.alreadyProcessed, db)
    else
      let base_amount := payment.amount
      let expected_with_vat := base_amount + vat_of base_amount
      if amount != expected_with_vat && amount != base_amount then
        (.amountMismatch expected_with_vat amount, db)
      else
        let user_id := payment.user_id
        let plan := payment.plan
        let expires_at := now + 30 * 86400
        let subRow : SubRow :=
          { user_id := user_id, plan := plan, status := "active",
            started_at := now, expires_at := some expires_at,
            payment_key := some payment_key, order_id := some order_id }
        let approve : DB :=
          { db with
            payments := db.payments.map (fun p =>
              if p.order_id == order_id then
                { p with
                  status := "approved"
                  payment_key := some payment_key
                  approved_at := some now }
              else p),
            users := db.users.map (fun u =>
              if u.id == user_id then { u with plan := plan } else u),
            subscriptions := db.subscriptions ++ [subRow] }
        if payment_key.startsWith "test_payment_" then
          (.confirmed plan expires_at true, approve)
        else
          match gateway with
          | .ok => (.confirmed plan expires_at false, approve)
          | .httpError msg code =>
            (.gatewayFailed msg code,
             { db with payments := db.payments.map (fun p =>
                 if p.order_id == order_id then { p with status := "failed" } else p) })
          | .timeout => (.gatewayTimeout, db)

/-- Result dict of cancel_payment / cancel_subscription style operations. -/
inductive SimpleResult where
  | failure (error : String)
  | success (message : String)
  deriving Repr, DecidableEq

/-- cancel_payment (payment.py lines 214-263): on gateway success the
payments matching the payment key are marked cancelled unconditionally,
the owning user's plan is set to free and the matching subscriptions are
marked cancelled. -/
def cancel_payment (db : DB) (gateway : GatewayResp) (payment_key : String) :
    SimpleResult × DB :=
  match gateway with
  | .ok =>
    let payments1 := db.payments.map (fun p =>
      if p.payment_key == some payment_key then { p with status := "cancelled" } else p)
    let db1 := { db with payments := payments1 }
    match payments1.find? (fun p => p.payment_key == some payment_key) with
    | none => (.success "결제가 취소되었습니다", db1)
    | some row =>
      (.success "결제가 취소되었습니다",
       { db1 with
         users := db1.users.map (fun u =>
           if u.id == row.user_id then { u with plan := "free" } else u),
         subscriptions := db1.subscriptions.map (fun s =>
           if s.payment_key == some payment_key then { s with status := "cancelled" } else s) })
  | .httpError msg _ => (.failure msg, db)
  | .timeout => (.failure "결제 취소 중 오류: timeout", db)

/-- Webhook payload: eventType and the paymentKey/status fields of its
data dict. -/
structure WebhookPayload where
  eventType : Option String
  paymentKey : Option String
  status : Option String
  deriving Repr, DecidableEq

structure WebhookResult where
  success : Bool
  message : String
  deriving Repr, DecidableEq

/-- The UPDATE of handle_webhook: `UPDATE payments SET status = st WHERE
payment_key = key`, unconditional on the current status; a NULL key
matches no row. -/
def set_payment_status_by_key (payments : List PaymentRow) (key : Option String)
    (st : String) : List PaymentRow :=
  match key with
  | none => payments
  | some k => payments.map (fun p =>
      if p.payment_key == some k then { p with status := st } else p)

/-- handle_webhook (payment.py lines 309-334): maps DONE/CANCELED/EXPIRED
onto approved/cancelled/expired keyed by payment key; every other event
type or status is accepted with success and no change. -/
def handle_webhook (db : DB) (payload : WebhookPayload) : WebhookResult × DB :=
  if payload.eventType == some "PAYMENT_STATUS_CHANGED" then
    let key := payload.paymentKey
    let payments1 :=
      if payload.status == some "DONE" then
        set_payment_status_by_key db.payments key "approved"
      else if payload.status == some "CANCELED" then
        set_payment_status_by_key db.payments key "cancelled"
      else if payload.status == some "EXPIRED" then
        set_payment_status_by_key db.payments key "expired"
      else db.payments
    ({ success := true, message := "Webhook processed: PAYMENT_STATUS_CHANGED" },
     { db with payments := payments1 })
  else ({ success := true, message := "Webhook received" }, db)

/- Supporting lemmas -/

lemma increment_usage_users (db : DB) (today uid : Nat) (a : String)
    (pr st ip : Option String) :
    (increment_usage db today uid a pr st ip).users = db.users := rfl

lemma find?_map_inc (l : List UsageRow) (uid today : Nat) :
    (l.map (fun r => if r.user_id == uid && r.date == today then
        { r with generation_count := r.generation_count + 1 } else r)).find?
        (fun r => r.user_id == uid && r.date == today)
      = (l.find? (fun r => r.user_id == uid && r.date == today)).map
        (fun r => { r with generation_count := r.generation_count + 1 }) := by
  induction l with
  | nil => rfl
  | cons a t ih =>
    cases h : (a.user_id == uid && a.date == today) with
    | true =>
      simp only [List.map_cons, List.find?_cons, h, if_true]
      rfl
    | false =>
      simp only [List.map_cons, List.find?_cons, h, Bool.false_eq_true, if_false, ih]

lemma today_count_of_increment (db : DB) (today uid : Nat) (a : String)
    (pr st ip : Option String) :
    today_count_of (increment_usage db today uid a pr st ip) today uid
      = today_count_of db today uid + 1 := by
  unfold today_count_of increment_usage
  cases hf : db.usage.find? (fun r => r.user_id == uid && r.date == today) with
  | none =>
    simp only [hf, Option.isSome_none, Bool.false_eq_true, if_false]
    rw [List.find?_append, hf]
    simp [List.find?_cons]
  | some r =>
    simp only [hf, Option.isSome_some, if_true]
    rw [find?_map_inc, hf]
    rfl

lemma iterate_inc_users (db : DB) (today uid n : Nat) :
    (iterate_inc db today uid n).users = db.users := by
  induction n with
  | zero => rfl
  | succ n ih => rw [iterate_inc, increment_usage_users, ih]

lemma find_user_by_id_iterate (db : DB) (today uid n uid2 : Nat) :
    find_user_by_id (iterate_inc db today uid n) uid2 = find_user_by_id db uid2 := by
  unfold find_user_by_id
  rw [iterate_inc_users]

lemma today_count_of_iterate (db : DB) (today uid n : Nat) :
    today_count_of (iterate_inc db today uid n) today uid
      = today_count_of db today uid + (n : Int) := by
  induction n with
  | zero => simp [iterate_inc]
  | succ n ih =>
    rw [iterate_inc, today_count_of_increment, ih]
    push_cast
    ring

lemma can_generate_of_natCast (N k : Nat) :
    can_generate_of (N : Int) (k : Int) = decide (k < N) := by
  unfold can_generate_of
  have h2 : ¬ ((N : Int) < 0) := by omega
  by_cases h : k < N
  · have h1 : ((k : Int) < (N : Int)) := by omega
    simp [h, h1, h2]
  · have h1 : ¬ ((k : Int) < (N : Int)) := by omega
    simp [h, h1, h2]

lemma get_user_usage_map_can_generate (db : DB) (today uid : Nat) (user : UserRow)
    (hf : find_user_by_id db uid = some user) :
    (get_user_usage db today uid).map Usage.can_generate
      = some (can_generate_of (plans_get user.plan).daily_limit
          (today_count_of db today uid)) := by
  simp only [get_user_usage, hf]
  rfl

/- Example inputs for claim C1 -/

def exUser_C1 : UserRow :=
  { id := 1, email := "a@x.com", password_hash := hash_password "password1",
    name := none, plan := "free", is_active := true, is_admin := false }

def exDB_C1 : DB :=
  { users := [exUser_C1], subscriptions := [], usage := [], generations := [],
    payments := [] }

def exUsage_C1 : Usage :=
  { plan := "free", plan_info := freePlan, today_count := 0, daily_limit := 3,
    remaining := 3, total_generated := 0, can_generate := true }

/-- C1: the can_generate flag computed by get_user_usage (and passed
through by check_can_generate) is the gate `daily_limit < 0 or
today_count < daily_limit`: for a negative (unlimited sentinel) limit it
is true regardless of the count, for a nonnegative limit N it is true
exactly while the count is strictly below N, and starting from a zeroed
counter it is true after k increments exactly when k < N, hence false
after exactly N increments that day. -/
theorem C1_can_generate_gate (db : DB) (today uid N k : Nat) (L c : Int) (u : Usage)
    (h : get_user_usage db today uid = some u)
    (hN : u.daily_limit = (N : Int))
    (h0 : today_count_of db today uid = 0) :
    (can_generate_of L c = if L < 0 then true else decide (c < L))
    ∧ u.can_generate = can_generate_of u.daily_limit u.today_count
    ∧ (check_can_generate db today uid).can_generate = u.can_generate
    ∧ (get_user_usage (iterate_inc db today uid k) today uid).map Usage.can_generate
        = some (decide (k < N))
    ∧ (get_user_usage (iterate_inc db today uid N) today uid).map Usage.can_generate
        = some false := by
  have hga := h
  unfold get_user_usage at h
  cases hf : find_user_by_id db uid with
  | none => rw [hf] at h; exact absurd h (by simp)
  | some user =>
    rw [hf] at h
    simp only [Option.some.injEq] at h
    have hplan : (plans_get user.plan).daily_limit = (N : Int) := by
      rw [← hN, ← h]
    refine ⟨?_, ?_, ?_, ?_, ?_⟩
    · unfold can_generate_of
      by_cases hL : L < 0
      · simp [hL]
      · simp [hL]
    · rw [← h]
    · unfold check_can_generate
      rw [hga]
      cases hcg : u.can_generate with
      | false => simp [hcg]
      | true => simp [hcg]
    · rw [get_user_usage_map_can_generate _ _ _ user
        (by rw [find_user_by_id_iterate]; exact hf)]
      rw [today_count_of_iterate, h0, hplan]
      simp [can_generate_of_natCast]
    · rw [get_user_usage_map_can_generate _ _ _ user
        (by rw [find_user_by_id_iterate]; exact hf)]
      rw [today_count_of_iterate, h0, hplan]
      simp [can_generate_of_natCast]

/-- Witness for C1 at a fresh free-plan user (daily_limit 3), checking the
gate after 2 increments (true) and after exactly 3 increments (false). -/
theorem C1_can_generate_gate_witness :
    (can_generate_of (-1) 7 = if (-1 : Int) < 0 then true else decide ((7 : Int) < -1))
    ∧ exUsage_C1.can_generate = can_generate_of exUsage_C1.daily_limit exUsage_C1.today_count
    ∧ (check_can_generate exDB_C1 0 1).can_generate = exUsage_C1.can_generate
    ∧ (get_user_usage (iterate_inc exDB_C1 0 1 2) 0 1).map Usage.can_generate
        = some (decide (2 < 3))
    ∧ (get_user_usage (iterate_inc exDB_C1 0 1 3) 0 1).map Usage.can_generate
        = some false :=
  C1_can_generate_gate exDB_C1 0 1 3 2 (-1) 7 exUsage_C1 (by decide) (by decide) (by decide)

/- Example inputs for claim C2 -/

def exPayment_C2 : PaymentRow :=
  { user_id := 1, order_id := "KAMPAI_1_pro_100", payment_key := some "pk_1",
    amount := 19900, plan := "pro", status := "cancelled", approved_at := none }

def exDB_C2 : DB :=
  { users := [], subscriptions := [], usage := [], generations := [],
    payments := [exPayment_C2] }

def exDoneEvent_C2 : WebhookPayload :=
  { eventType := some "PAYMENT_STATUS_CHANGED", paymentKey := some "pk_1",
    status := some "DONE" }

/-- C2 counterexample: a DONE webhook for an already-cancelled payment
moves its status back to approved, so payment status does not move only
forward and a cancelled payment can return to approved. -/
theorem C2_counterexample :
    exPayment_C2.status = "cancelled"
    ∧ (handle_webhook exDB_C2 exDoneEvent_C2).2.payments.map PaymentRow.status
        = ["approved"] := by
  constructor
  · rfl
  · rfl

/-- C2 amended: only the confirm path is guarded — confirm_payment
refuses any non-pending payment as already processed and leaves the
store unchanged — while handle_webhook applies a DONE event
unconditionally by payment key, setting every matching payment (whatever
its current status, cancelled included) to approved, and cancel_payment
marks every matching payment cancelled from any state, not only from
approved. -/
theorem C2_forward_only_amended (db : DB) (now : Nat) (gw : GatewayResp)
    (pk oid : String) (amount : Int) (p : PaymentRow)
    (hfind : db.payments.find? (fun q => q.order_id == oid) = some p)
    (hst : (p.status != "pending") = true) :
    confirm_payment db now gw pk oid amount = (.alreadyProcessed, db)
    ∧ (handle_webhook db
        { eventType := some "PAYMENT_STATUS_CHANGED", paymentKey := some pk,
          status := some "DONE" }).2.payments
        = db.payments.map (fun q =>
            if q.payment_key == some pk then { q with status := "approved" } else q)
    ∧ (cancel_payment db .ok pk).2.payments
        = db.payments.map (fun q =>
            if q.payment_key == some pk then { q with status := "cancelled" } else q) := by
  refine ⟨?_, ?_, ?_⟩
  · unfold confirm_payment
    rw [hfind]
    simp only [hst, if_true]
  · unfold handle_webhook set_payment_status_by_key
    rfl
  · unfold cancel_payment
    cases hf2 : (db.payments.map (fun q =>
        if q.payment_key == some pk then { q with status := "cancelled" } else q)).find?
        (fun q => q.payment_key == some pk) with
    | none => simp only [hf2]
    | some row => simp only [hf2]

/-- Witness for C2 amended at the cancelled example payment. -/
theorem C2_forward_only_amended_witness :
    confirm_payment exDB_C2 0 .ok "pk_1" "KAMPAI_1_pro_100" 19900
        = (.alreadyProcessed, exDB_C2)
    ∧ (handle_webhook exDB_C2
        { eventType := some "PAYMENT_STATUS_CHANGED", paymentKey := some "pk_1",
          status := some "DONE" }).2.payments
        = exDB_C2.payments.map (fun q =>
            if q.payment_key == some "pk_1" then { q with status := "approved" } else q)
    ∧ (cancel_payment exDB_C2 .ok "pk_1").2.payments
        = exDB_C2.payments.map (fun q =>
            if q.payment_key == some "pk_1" then { q with status := "cancelled" } else q) :=
  C2_forward_only_amended exDB_C2 0 .ok "pk_1" "KAMPAI_1_pro_100" 19900 exPayment_C2
    (by decide) (by decide)

/- Example inputs for claim C3 -/

def exUser_C3 : UserRow :=
  { id := 1, email := "b@x.com", password_hash := "h", name := none,
    plan := "free", is_active := true, is_admin := false }

def exDB_C3 : DB :=
  { users := [exUser_C3], subscriptions := [], usage := [], generations := [],
    payments := [] }

/-- C3 counterexample: for a user with no active subscription row,
get_subscription_status reports plan "free" with no expiry but with
active = false, not active = true as claimed. -/
theorem C3_counterexample :
    (get_subscription_status exDB_C3 0 1).plan = "free"
    ∧ (get_subscription_status exDB_C3 0 1).expires_at = none
    ∧ ¬ ((get_subscription_status exDB_C3 0 1).active = true) := by
  refine ⟨rfl, rfl, ?_⟩
  decide

/-- C3 amended: for every user with no subscription row in status
'active', get_subscription_status reports the free tier with active =
false and no expiry (the dict is exactly the two-key fallback). -/
theorem C3_free_tier_amended (db : DB) (now uid : Nat)
    (h : ∀ s ∈ db.subscriptions, ¬ (s.user_id = uid ∧ s.status = "active")) :
    get_subscription_status db now uid
      = { active := false, plan := "free", status := none, started_at := none,
          expires_at := none, is_expired := none } := by
  have hfilter : db.subscriptions.filter
      (fun s => s.user_id == uid && s.status == "active") = [] := by
    rw [List.filter_eq_nil_iff]
    intro s hs
    have := h s hs
    simp only [Bool.and_eq_true, beq_iff_eq]
    intro hcontra
    exact this hcontra
  unfold get_subscription_status latest_active_sub
  rw [hfilter]
  rfl

/-- Witness for C3 amended at a user with an empty subscriptions table. -/
theorem C3_free_tier_amended_witness :
    get_subscription_status exDB_C3 0 1
      = { active := false, plan := "free", status := none, started_at := none,
          expires_at := none, is_expired := none } :=
  C3_free_tier_amended exDB_C3 0 1
    (by intro s hs; exact absurd hs (List.not_mem_nil s))

/- Example inputs for claim C4 -/

def exUsage_C4 : Usage :=
  { plan := "free", plan_info := freePlan, today_count := 0, daily_limit := 3,
    remaining := 3, total_generated := 0, can_generate := true }

lemma plans_get_daily_limit_pos (tag : String) :
    0 < (plans_get tag).daily_limit := by
  unfold plans_get PLANS
  by_cases h1 : tag == "free"
  · simp [h1, freePlan]
  · by_cases h2 : tag == "basic"
    · simp [h1, h2, basicPlan]
    · by_cases h3 : tag == "pro"
      · simp [h1, h2, h3, proPlan]
      · by_cases h4 : tag == "business"
        · simp [h1, h2, h3, h4, businessPlan]
        · simp [h1, h2, h3, h4, freePlan]

/-- C4 counterexample: at the edge case daily_limit = 0 (which is not the
negative unlimited sentinel) the remaining computation of get_user_usage
returns the fixed sentinel -1 instead of daily_limit - today_count = 0,
because the code guards with `daily_limit > 0`, not `daily_limit >= 0`. -/
theorem C4_counterexample :
    remaining_of 0 0 = -1 ∧ (0 : Int) - 0 = 0 ∧ ¬ (remaining_of 0 0 = 0 - 0) := by
  refine ⟨rfl, by decide, by decide⟩

/-- C4 amended: the remaining field of get_user_usage is
`daily_limit - today_count` when daily_limit is strictly positive and
the sentinel -1 when daily_limit <= 0 (so the sentinel branch also
captures the edge case daily_limit = 0); every plan in the catalog has a
strictly positive daily_limit, so for catalogued plans remaining is
always the difference. -/
theorem C4_remaining_amended (db : DB) (today uid : Nat) (u : Usage)
    (h : get_user_usage db today uid = some u) :
    u.remaining = remaining_of u.daily_limit u.today_count
    ∧ (0 < u.daily_limit → u.remaining = u.daily_limit - u.today_count)
    ∧ (u.daily_limit ≤ 0 → u.remaining = -1)
    ∧ 0 < u.daily_limit := by
  unfold get_user_usage at h
  cases hf : find_user_by_id db uid with
  | none => rw [hf] at h; exact absurd h (by simp)
  | some user =>
    rw [hf] at h
    simp only [Option.some.injEq] at h
    have hpos : 0 < (plans_get user.plan).daily_limit := plans_get_daily_limit_pos user.plan
    refine ⟨?_, ?_, ?_, ?_⟩
    · rw [← h]
    · intro hl
      rw [← h]
      unfold remaining_of
      rw [if_pos (by rw [← h] at hl; exact hl)]
    · intro hl
      rw [← h] at hl ⊢
      exact absurd hl (by simp only [not_le]; exact hpos)
    · rw [← h]
      exact hpos

/-- Witness for C4 amended at the fresh free-plan user. -/
theorem C4_remaining_amended_witness :
    exUsage_C4.remaining = remaining_of exUsage_C4.daily_limit exUsage_C4.today_count
    ∧ (0 < exUsage_C4.daily_limit →
        exUsage_C4.remaining = exUsage_C4.daily_limit - exUsage_C4.today_count)
    ∧ (exUsage_C4.daily_limit ≤ 0 → exUsage_C4.remaining = -1)
    ∧ 0 < exUsage_C4.daily_limit :=
  C4_remaining_amended exDB_C1 0 1 exUsage_C4 (by decide)

/- Example inputs for claim C5 -/

def exPayment_C5 : PaymentRow :=
  { user_id := 1, order_id := "KAMPAI_1_pro_200", payment_key := none,
    amount := 19900, plan := "pro", status := "pending", approved_at := none }

def exDB_C5 : DB :=
  { users := [], subscriptions := [], usage := [], generations := [],
    payments := [exPayment_C5] }

/-- C5: for a pending payment with stored base price P, confirm_payment
called with any amount other than P or P + floor(P * 0.1) returns an
amount-mismatch error and leaves the store (hence the payment row, the
user plans and the subscriptions) unchanged with the status still
pending, and a successful confirmation implies the amount was P or
P + floor(P * 0.1). -/
theorem C5_amount_guard (db : DB) (now : Nat) (gw : GatewayResp) (pk oid : String)
    (amount : Int) (p : PaymentRow)
    (hfind : db.payments.find? (fun q => q.order_id == oid) = some p)
    (hpending : p.status = "pending") :
    ((amount ≠ p.amount ∧ amount ≠ p.amount + vat_of p.amount) →
        confirm_payment db now gw pk oid amount
          = (.amountMismatch (p.amount + vat_of p.amount) amount, db))
    ∧ ((confirm_payment db now gw pk oid amount).1.is_success = true →
        amount = p.amount ∨ amount = p.amount + vat_of p.amount) := by
  have key : (amount ≠ p.amount ∧ amount ≠ p.amount + vat_of p.amount) →
      confirm_payment db now gw pk oid amount
        = (.amountMismatch (p.amount + vat_of p.amount) amount, db) := by
    intro hne
    unfold confirm_payment
    simp only [hfind]
    have h1 : (p.status != "pending") = false := by
      rw [hpending]
      simp
    rw [h1]
    simp only [Bool.false_eq_true, if_false]
    have h2 : (amount != p.amount + vat_of p.amount && amount != p.amount) = true := by
      simp only [Bool.and_eq_true, bne_iff_ne, ne_eq]
      exact ⟨hne.2, hne.1⟩
    rw [h2]
    simp only [if_true]
  refine ⟨key, ?_⟩
  intro hs
  by_cases hb : amount = p.amount
  · exact Or.inl hb
  · by_cases hv : amount = p.amount + vat_of p.amount
    · exact Or.inr hv
    · rw [key ⟨hb, hv⟩] at hs
      exact absurd hs (by simp [ConfirmResult.is_success])

/-- Witness for C5 at a pending pro order (price 19900, with-VAT 21890)
confirmed with amount 1. -/
theorem C5_amount_guard_witness :
    (((1 : Int) ≠ exPayment_C5.amount
        ∧ (1 : Int) ≠ exPayment_C5.amount + vat_of exPayment_C5.amount) →
      confirm_payment exDB_C5 0 .ok "pk" "KAMPAI_1_pro_200" 1
        = (.amountMismatch (exPayment_C5.amount + vat_of exPayment_C5.amount) 1, exDB_C5))
    ∧ ((confirm_payment exDB_C5 0 .ok "pk" "KAMPAI_1_pro_200" 1).1.is_success = true →
        (1 : Int) = exPayment_C5.amount
          ∨ (1 : Int) = exPayment_C5.amount + vat_of exPayment_C5.amount) :=
  C5_amount_guard exDB_C5 0 .ok "pk" "KAMPAI_1_pro_200" 1 exPayment_C5
    (by decide) (by decide)

/- Supporting lemmas for claim C6 -/

lemma map_idem {α : Type} (f : α → α) (hf : ∀ x, f (f x) = f x) (l : List α) :
    (l.map f).map f = l.map f := by
  induction l with
  | nil => rfl
  | cons a t ih => simp only [List.map_cons, hf, ih]

lemma set_payment_status_by_key_idem (l : List PaymentRow) (key : Option String)
    (st : String) :
    set_payment_status_by_key (set_payment_status_by_key l key st) key st
      = set_payment_status_by_key l key st := by
  cases key with
  | none => rfl
  | some k =>
    unfold set_payment_status_by_key
    apply map_idem
    intro x
    by_cases h : (x.payment_key == some k) = true
    · rw [if_pos h]
      have h2 : (({ x with status := st } : PaymentRow).payment_key == some k) = true := h
      rw [if_pos h2]
    · rw [if_neg h, if_neg h]

/-- C6: delivering the same webhook event twice leaves every payment row
(and the returned result) exactly as delivering it once, and an event
whose eventType is not PAYMENT_STATUS_CHANGED is accepted with a success
result and changes no row. -/
theorem C6_webhook_idempotent (db : DB) (e : WebhookPayload) (t : Option String)
    (ht : t ≠ some "PAYMENT_STATUS_CHANGED") :
    handle_webhook (handle_webhook db e).2 e = handle_webhook db e
    ∧ (handle_webhook db
        { eventType := t, paymentKey := e.paymentKey, status := e.status }).2 = db
    ∧ (handle_webhook db
        { eventType := t, paymentKey := e.paymentKey, status := e.status }).1.success
        = true := by
  have htb : (t == some "PAYMENT_STATUS_CHANGED") = false := by
    simp only [beq_eq_false_iff_ne, ne_eq]
    exact ht
  refine ⟨?_, ?_, ?_⟩
  · unfold handle_webhook
    cases he : (e.eventType == some "PAYMENT_STATUS_CHANGED") with
    | false => simp only [he, Bool.false_eq_true, if_false]
    | true =>
      simp only [he, if_true]
      cases h1 : (e.status == some "DONE") with
      | true => simp only [h1, if_true, set_payment_status_by_key_idem]
      | false =>
        simp only [h1, Bool.false_eq_true, if_false]
        cases h2 : (e.status == some "CANCELED") with
        | true => simp only [h2, if_true, set_payment_status_by_key_idem]
        | false =>
          simp only [h2, Bool.false_eq_true, if_false]
          cases h3 : (e.status == some "EXPIRED") with
          | true => simp only [h3, if_true, set_payment_status_by_key_idem]
          | false => simp only [h3, Bool.false_eq_true, if_false]
  · unfold handle_webhook
    simp only [htb, Bool.false_eq_true, if_false]
  · unfold handle_webhook
    simp only [htb, Bool.false_eq_true, if_false]

/-- Witness for C6 at a DONE event over the C2 example store and an
unrecognized event type. -/
theorem C6_webhook_idempotent_witness :
    handle_webhook (handle_webhook exDB_C2 exDoneEvent_C2).2 exDoneEvent_C2
        = handle_webhook exDB_C2 exDoneEvent_C2
    ∧ (handle_webhook exDB_C2
        { eventType := some "PAYMENT_CREATED", paymentKey := exDoneEvent_C2.paymentKey,
          status := exDoneEvent_C2.status }).2 = exDB_C2
    ∧ (handle_webhook exDB_C2
        { eventType := some "PAYMENT_CREATED", paymentKey := exDoneEvent_C2.paymentKey,
          status := exDoneEvent_C2.status }).1.success = true :=
  C6_webhook_idempotent exDB_C2 exDoneEvent_C2 (some "PAYMENT_CREATED") (by decide)

/- Supporting definitions and lemma for claim C7 -/

/-- The user row inserted by register_user for a fresh email. -/
def registered_user_row (db : DB) (email password : String)
    (name : Option String) : UserRow :=
  { id := next_user_id db, email := email, password_hash := hash_password password,
    name := name, plan := "free", is_active := true, is_admin := false }

lemma login_after_register (db : DB) (now now2 today : Nat) (email password : String)
    (name : Option String)
    (hfresh : find_user_by_email db email = none)
    (hnl : ¬ password.length < 8) :
    (login_user (register_user db now today email password name).2 now2 email password).1
      = .success "로그인 성공"
          { id := next_user_id db, email := email, name := name, plan := "free" }
          (create_token (next_user_id db) email now2) := by
  have hfind : (register_user db now today email password name).2.users
      = db.users ++ [registered_user_row db email password name] := by
    simp only [register_user, if_neg hnl, hfresh, registered_user_row]
  have hfresh2 : db.users.find? (fun v => v.email == email) = none := hfresh
  have hfound : find_user_by_email
      (register_user db now today email password name).2 email
      = some (registered_user_row db email password name) := by
    unfold find_user_by_email
    rw [hfind, List.find?_append, hfresh2]
    simp [List.find?_cons, registered_user_row]
  unfold login_user
  rw [hfound]
  simp [verify_password, registered_user_row]

/-- C7: registering a fresh email with a password of length at least 8
succeeds and returns a user object carrying that email, and a subsequent
login with the same credentials against the updated store succeeds and
returns a user object with the same email. -/
theorem C7_register_login_roundtrip (db : DB) (now now2 today : Nat)
    (email password : String) (name : Option String)
    (hfresh : find_user_by_email db email = none)
    (hlen : 8 ≤ password.length) :
    ((register_user db now today email password name).1).is_success = true
    ∧ ((register_user db now today email password name).1).email_of = some email
    ∧ ((login_user (register_user db now today email password name).2
          now2 email password).1).is_success = true
    ∧ ((login_user (register_user db now today email password name).2
          now2 email password).1).email_of = some email := by
  have hnl : ¬ password.length < 8 := by omega
  refine ⟨?_, ?_, ?_, ?_⟩
  · simp only [register_user, if_neg hnl, hfresh]
    rfl
  · simp only [register_user, if_neg hnl, hfresh]
    rfl
  · rw [login_after_register db now now2 today email password name hfresh hnl]
    rfl
  · rw [login_after_register db now now2 today email password name hfresh hnl]
    rfl

/-- The empty relational store. -/
def emptyDB : DB :=
  { users := [], subscriptions := [], usage := [], generations := [], payments := [] }

/-- Witness for C7 registering a@x.com with password1 on an empty store
and logging back in. -/
theorem C7_register_login_roundtrip_witness :
    ((register_user emptyDB 0 0 "a@x.com" "password1" none).1).is_success = true
    ∧ ((register_user emptyDB 0 0 "a@x.com" "password1" none).1).email_of
        = some "a@x.com"
    ∧ ((login_user (register_user emptyDB 0 0 "a@x.com" "password1" none).2
          7 "a@x.com" "password1").1).is_success = true
    ∧ ((login_user (register_user emptyDB 0 0 "a@x.com" "password1" none).2
          7 "a@x.com" "password1").1).email_of = some "a@x.com" :=
  C7_register_login_roundtrip emptyDB 0 7 0 "a@x.com" "password1" none
    (by decide) (by decide)

/- Example inputs for claim C8 -/

def exUser_C8 : UserRow :=
  { id := 1, email := "c@x.com", password_hash := hash_password "password1",
    name := none, plan := "free", is_active := true, is_admin := false }

def exDB_C8 : DB :=
  { users := [exUser_C8], subscriptions := [], usage := [], generations := [],
    payments := [] }

/-- C8: the login failure for a nonexistent email is the very same result
value (same success flag, same error message) as the failure for an
existing active account with a wrong password, so a caller cannot
distinguish the two cases. -/
theorem C8_no_account_enumeration (db1 db2 : DB) (now1 now2 : Nat)
    (email1 password1 email2 password2 : String) (u : UserRow)
    (h1 : find_user_by_email db1 email1 = none)
    (h2 : find_user_by_email db2 email2 = some u)
    (hactive : u.is_active = true)
    (hwrong : verify_password password2 u.password_hash = false) :
    (login_user db1 now1 email1 password1).1 = (login_user db2 now2 email2 password2).1
    ∧ (login_user db1 now1 email1 password1).1
        = .failure "이메일 또는 비밀번호가 올바르지 않습니다" := by
  have ha : (login_user db1 now1 email1 password1).1
      = .failure "이메일 또는 비밀번호가 올바르지 않습니다" := by
    unfold login_user
    rw [h1]
  have hb : (login_user db2 now2 email2 password2).1
      = .failure "이메일 또는 비밀번호가 올바르지 않습니다" := by
    unfold login_user
    simp only [h2, hactive, hwrong, Bool.not_true, Bool.not_false,
      Bool.false_eq_true, if_false, if_true]
  exact ⟨ha.trans hb.symm, ha⟩

/-- Witness for C8 comparing a login against an empty store with a
wrong-password login against the stored account. -/
theorem C8_no_account_enumeration_witness :
    (login_user emptyDB 0 "nobody@x.com" "whatever1").1
        = (login_user exDB_C8 0 "c@x.com" "wrongpass1").1
    ∧ (login_user emptyDB 0 "nobody@x.com" "whatever1").1
        = .failure "이메일 또는 비밀번호가 올바르지 않습니다" :=
  C8_no_account_enumeration emptyDB exDB_C8 0 0 "nobody@x.com" "whatever1"
    "c@x.com" "wrongpass1" exUser_C8 (by decide) (by decide) (by decide) (by decide)

/- Example inputs for claim C9 -/

def exUser_C9 : UserRow :=
  { id := 7, email := "d@x.com", password_hash := "h", name := none,
    plan := "free", is_active := false, is_admin := false }

def exDB_C9 : DB :=
  { users := [exUser_C9], subscriptions := [], usage := [], generations := [],
    payments := [] }

def exTok_C9 : Token := { user_id := 7, email := "d@x.com", exp := 1000 }

/-- C9 counterexample: optional_token is a verification path that attaches
an identity to the request without re-checking the active flag — for a
disabled account with a valid unexpired token it still attaches the
identity, while token_required rejects the same request. -/
theorem C9_counterexample :
    exUser_C9.is_active = false
    ∧ optional_token exDB_C9 0 (some exTok_C9)
        = some { id := 7, email := "d@x.com", plan := "free" }
    ∧ token_required exDB_C9 0 (some exTok_C9) = .error "비활성화된 계정입니다" := by
  refine ⟨rfl, by decide, by rfl⟩

/-- C9 amended: token_required re-reads the user's active flag from the
store on every call and rejects a disabled account even though the token
itself is still valid, but optional_token attaches the identity for any
existing user with a valid token regardless of the stored active flag. -/
theorem C9_active_check_amended (db : DB) (now : Nat) (t : Token) (u : UserRow)
    (hv : now < t.exp)
    (hu : find_user_by_id db t.user_id = some u) :
    token_required db now (some t)
      = (if u.is_active then
           .ok { id := u.id, email := u.email, plan := u.plan }
         else .error "비활성화된 계정입니다")
    ∧ optional_token db now (some t)
        = some { id := u.id, email := u.email, plan := u.plan } := by
  have hvt : verify_token t now = some t := by
    unfold verify_token
    rw [if_pos hv]
  constructor
  · unfold token_required
    simp only [hvt, hu]
    cases hact : u.is_active with
    | true => simp [hact]
    | false => simp [hact]
  · unfold optional_token
    simp only [hvt, hu]

/-- Witness for C9 amended at the disabled example account. -/
theorem C9_active_check_amended_witness :
    token_required exDB_C9 0 (some exTok_C9)
      = (if exUser_C9.is_active then
           .ok { id := exUser_C9.id, email := exUser_C9.email, plan := exUser_C9.plan }
         else .error "비활성화된 계정입니다")
    ∧ optional_token exDB_C9 0 (some exTok_C9)
        = some { id := exUser_C9.id, email := exUser_C9.email, plan := exUser_C9.plan } :=
  C9_active_check_amended exDB_C9 0 exTok_C9 exUser_C9 (by decide) (by decide)

/- Supporting definitions for claim C10 -/

def exceptOk {ε α : Type} : Except ε α → Bool
  | .ok _ => true
  | .error _ => false

/-- The store after a create-order call, or the fallback when the call
raised. -/
def state_of_order (r : Except String (CreateOrderResult × DB)) (fallback : DB) : DB :=
  match r with
  | .ok (_, db2) => db2
  | .error _ => fallback

/-- The pending payment row inserted by create_payment_order. -/
def pending_payment_row (uid : Nat) (plan : String) (now : Nat) (amount : Int) :
    PaymentRow :=
  { user_id := uid, order_id := order_id_of uid plan now, payment_key := none,
    amount := amount, plan := plan, status := "pending", approved_at := none }

/-- The order result returned by create_payment_order on success. -/
def order_out_of (uid : Nat) (plan : String) (now : Nat) (amount : Int) : OrderOut :=
  { order_id := order_id_of uid plan now, amount := amount, plan := plan,
    order_name := "Kampai " ++ plan.capitalize ++ " 플랜 (1개월)" }

/-- C10: the order identifier depends only on the user id, the plan tag
and the current second, so a second create_payment_order call for the
same user and plan within the same second recomputes the identical
order_id, finds it already inserted, and raises on the UNIQUE(order_id)
constraint instead of returning a result. -/
theorem C10_order_id_collision (db : DB) (now uid : Nat) (plan : String) (price : Int)
    (hplan : PLAN_PRICES plan = some price)
    (hfresh : db.payments.find? (fun p => p.order_id == order_id_of uid plan now)
        = none) :
    exceptOk (create_payment_order db now uid plan) = true
    ∧ create_payment_order (state_of_order (create_payment_order db now uid plan) db)
        now uid plan = .error "UNIQUE constraint failed: payments.order_id"
    ∧ ((state_of_order (create_payment_order db now uid plan) db).payments.find?
        (fun p => p.order_id == order_id_of uid plan now)).isSome = true := by
  have hns : (db.payments.find?
      (fun p => p.order_id == order_id_of uid plan now)).isSome = false := by
    rw [hfresh]
    rfl
  have hfirst : create_payment_order db now uid plan
      = .ok (.success (order_out_of uid plan now price),
          { db with payments := db.payments ++ [pending_payment_row uid plan now price] }) := by
    unfold create_payment_order
    simp only [hplan, hns, Bool.false_eq_true, if_false]
    rfl
  have hrow : (db.payments ++ [pending_payment_row uid plan now price]).find?
      (fun p => p.order_id == order_id_of uid plan now)
      = some (pending_payment_row uid plan now price) := by
    rw [List.find?_append, hfresh]
    simp [List.find?_cons, pending_payment_row]
  refine ⟨?_, ?_, ?_⟩
  · rw [hfirst]
    rfl
  · rw [hfirst]
    unfold state_of_order
    unfold create_payment_order
    simp only [hplan]
    have h2 : (({ db with payments := db.payments ++ [pending_payment_row uid plan now price] } : DB).payments.find?
        (fun p => p.order_id == order_id_of uid plan now)).isSome = true := by
      simp only [hrow]
      rfl
    simp only [h2, if_true]
  · rw [hfirst]
    unfold state_of_order
    simp only [hrow]
    rfl

/-- Witness for C10: two pro-plan orders for user 1 in the same second on
an empty store. -/
theorem C10_order_id_collision_witness :
    exceptOk (create_payment_order emptyDB 0 1 "pro") = true
    ∧ create_payment_order (state_of_order (create_payment_order emptyDB 0 1 "pro") emptyDB)
        0 1 "pro" = .error "UNIQUE constraint failed: payments.order_id"
    ∧ ((state_of_order (create_payment_order emptyDB 0 1 "pro") emptyDB).payments.find?
        (fun p => p.order_id == order_id_of 1 "pro" 0)).isSome = true :=
  C10_order_id_collision emptyDB 0 1 "pro" 19900 (by decide) (by decide)

end Kampai
